import Mathlib

/-!
# Torch: peer connection orchestrator

A shallow embedding of three source files of the repository

* `pkg/http/handlers.go`  : `ConfigureNode`, `Gen`, `GetNoId`, `ReturnResponse`
* `pkg/k8s/commands.go`   : the three shell scripts of the trusted-peer bootstrap
* `pkg/k8s/metrics.go`    : `CalculateDaysDifference`

Handlers write `Response` envelopes to an `http.ResponseWriter`; the writer is
represented by the list of envelopes written so far.  The two collaborators of
`ConfigureNode` live in package `nodes`; they are parameters of the embedding
and every invocation is recorded in a call trace.
-/

namespace Torch

/-! ## Data model -/

/-- A Go `error` value, identified by its message. -/
structure GoError where
  msg : String
  deriving DecidableEq, Repr

/-- The dynamic values stored in the `interface{}` fields `Body` and `Errors`
of a `Response`: `nil`, a string, or an `error`. -/
inductive Value where
  | null : Value
  | str : String → Value
  | err : GoError → Value
  deriving DecidableEq, Repr

/-- Modelled from the spec: the type-specific connection fields of
`config.Peer` (package `config` is not part of the sources at hand); they are
named string fields, the zero value has none. -/
abbrev ConnectionParams := List (String × String)

/-- Modelled from the spec: `config.Peer`, with the three fields the handlers
read (`NodeName`, `NodeType`, `ConnectsAsEnvVar`) and the remaining
connection parameters. -/
structure Peer where
  NodeName : String
  NodeType : String
  ConnectsAsEnvVar : Bool
  params : ConnectionParams
  deriving DecidableEq, Repr

/-- The Go zero value `config.Peer{}`. -/
def Peer.zero : Peer := ⟨"", "", false, []⟩

/-- Modelled from the spec: one peer-group declaration of the topology. -/
structure MutualPeer where
  Peers : List Peer
  deriving DecidableEq, Repr

/-- Modelled from the spec: `config.MutualPeersConfig`, the ordered collection
of peer-group declarations. -/
structure MutualPeersConfig where
  MutualPeers : List MutualPeer
  deriving DecidableEq, Repr

/-- The response envelope `Response` of `handlers.go`. -/
structure Response where
  Status : Nat
  Body : Value
  Errors : Value
  deriving DecidableEq, Repr

/-- The constant `http.StatusOK`. -/
def StatusOK : Nat := 200
/-- The constant `http.StatusNotFound`. -/
def StatusNotFound : Nat := 404
/-- The constant `http.StatusInternalServerError`. -/
def StatusInternalServerError : Nat := 500

/-! ## Collaborators from package `nodes` -/

/-- The functions of package `nodes` that the handlers call.  The two
configuration paths return `none` for a nil error. -/
structure Collaborators where
  /-- default connection parameters written by `nodes.SetDaNodeDefault` -/
  daDefault : ConnectionParams → ConnectionParams
  /-- default connection parameters written by `nodes.SetConsNodeDefault` -/
  consDefault : ConnectionParams → ConnectionParams
  /-- the env wiring path, `nodes.SetupNodesEnvVarAndConnections` -/
  envWiring : Peer → MutualPeersConfig → Option GoError
  /-- the command path, `nodes.SetupDANodeWithConnections` -/
  commandPath : Peer → Option GoError

/-- Modelled from the spec: `nodes.SetDaNodeDefault` applies the DA default
connection parameters and leaves name, type and connection mode as they are. -/
def SetDaNodeDefault (k : Collaborators) (peer : Peer) : Peer :=
  ⟨peer.NodeName, peer.NodeType, peer.ConnectsAsEnvVar, k.daDefault peer.params⟩

/-- Modelled from the spec: `nodes.SetConsNodeDefault` applies the consensus
default connection parameters and leaves name, type and connection mode as
they are. -/
def SetConsNodeDefault (k : Collaborators) (peer : Peer) : Peer :=
  ⟨peer.NodeName, peer.NodeType, peer.ConnectsAsEnvVar, k.consDefault peer.params⟩

/-- Modelled from the spec: `nodes.ValidateNode` looks the name up across all
peer groups in order, the first match wins, and a miss returns `false` with the
zero-value `Peer`. -/
def ValidateNode (n : String) (cfg : MutualPeersConfig) : Bool × Peer :=
  match (cfg.MutualPeers.map (fun g => g.Peers)).flatten.find? (fun p => p.NodeName == n) with
  | some p => (true, p)
  | none => (false, Peer.zero)

/-- One recorded invocation of a collaborator, with the peer passed to it. -/
inductive Call where
  | envWiring : Peer → Call
  | commandPath : Peer → Call
  deriving DecidableEq, Repr

/-- Whether a recorded call went to the env wiring path. -/
def Call.isEnvWiring : Call → Bool
  | Call.envWiring _ => true
  | Call.commandPath _ => false

/-- Whether a recorded call went to the command path. -/
def Call.isCommandPath : Call → Bool
  | Call.envWiring _ => false
  | Call.commandPath _ => true

/-- The error (or `none`) the collaborator returned on a recorded call. -/
def Call.outcome (k : Collaborators) (cfg : MutualPeersConfig) : Call → Option GoError
  | Call.envWiring p => k.envWiring p cfg
  | Call.commandPath p => k.commandPath p

/-- Number of env wiring invocations in a trace. -/
def envWiringCalls (t : List Call) : Nat := (t.filter Call.isEnvWiring).length

/-- Number of command path invocations in a trace. -/
def commandPathCalls (t : List Call) : Nat := (t.filter Call.isCommandPath).length

/-! ## `handlers.go` -/

/-- The function `ConfigureNode` of `handlers.go`: the response it returns and the
trace of collaborator calls it made.  `err` is the incoming error argument. -/
def ConfigureNode (k : Collaborators) (cfg : MutualPeersConfig) (peer : Peer)
    (err : Option GoError) : Response × List Call :=
  -- switch peer.NodeType
  let peer :=
    if peer.NodeType = "da" then SetDaNodeDefault k peer
    else if peer.NodeType = "consensus" then SetConsNodeDefault k peer
    else peer
  -- if peer.ConnectsAsEnvVar { err = SetupNodesEnvVarAndConnections(peer, cfg) ... }
  let envStep : Option Response × List Call × Option GoError :=
    if peer.ConnectsAsEnvVar then
      let err := k.envWiring peer cfg
      match err with
      | some e =>
        (some ⟨StatusInternalServerError, Value.str peer.NodeName, Value.err e⟩,
          [Call.envWiring peer], err)
      | none => (none, [Call.envWiring peer], err)
    else (none, [], err)
  match envStep with
  | (some resp, trace, _) => (resp, trace)
  | (none, trace, _) =>
    -- if peer.NodeType == "da" && !peer.ConnectsAsEnvVar { err := SetupDANodeWithConnections(peer) ... }
    if peer.NodeType = "da" ∧ peer.ConnectsAsEnvVar = false then
      match k.commandPath peer with
      | some e =>
        (⟨StatusInternalServerError, Value.str peer.NodeName, Value.err e⟩,
          trace ++ [Call.commandPath peer])
      | none =>
        (⟨StatusOK, Value.str peer.NodeName, Value.str ""⟩, trace ++ [Call.commandPath peer])
    else
      (⟨StatusOK, Value.str peer.NodeName, Value.str ""⟩, trace)

/-- The outcome of `json.NewDecoder(r.Body).Decode(&body)` in `Gen`: the decode
error, if any, and the value of `body.Body` (the `pod_name`) afterwards. -/
structure DecodedRequest where
  decodeErr : Option GoError
  Body : String
  deriving DecidableEq, Repr

/-- The function `ReturnResponse`: the envelope is appended to what the writer
holds (JSON encoding is left out). -/
def ReturnResponse (resp : Response) (w : List Response) : List Response := w ++ [resp]

/-- The function `Gen` of `handlers.go` (POST /configure): the envelopes written
to the response writer and the trace of collaborator calls. -/
def Gen (k : Collaborators) (w : List Response) (r : DecodedRequest)
    (cfg : MutualPeersConfig) : List Response × List Call :=
  let err := r.decodeErr
  let w :=
    match err with
    | some e => ReturnResponse ⟨StatusInternalServerError, Value.str r.Body, Value.err e⟩ w
    | none => w
  let (ok, peer) := ValidateNode r.Body cfg
  let w :=
    if ok = false then
      ReturnResponse ⟨StatusNotFound, Value.str r.Body,
        Value.err ⟨"error: Pod doesn't exists in the config"⟩⟩ w
    else w
  let (resp, trace) := ConfigureNode k cfg peer err
  (ReturnResponse resp w, trace)

/-- The function `GetNoId` of `handlers.go` (GET /nodes/{nodeName}): the envelopes
written to the response writer.  `getKey` is the registry read `red.GetKey`,
returning the value and the error. -/
def GetNoId (getKey : String → String × Option GoError) (w : List Response)
    (nodeName : String) (cfg : MutualPeersConfig) : List Response :=
  if nodeName = "" then w
  else
    let (ok, peer) := ValidateNode nodeName cfg
    let w :=
      if ok = false then
        ReturnResponse ⟨StatusNotFound, Value.str peer.NodeName,
          Value.err ⟨"error: Pod doesn't exists in the config"⟩⟩ w
      else w
    let resp : Response := ⟨0, Value.null, Value.null⟩
    let (nodeIDs, err) := getKey nodeName
    let resp : Response :=
      if nodeIDs = "" then
        ⟨StatusNotFound, Value.str "", Value.str ("[ERROR] Node [" ++ nodeName ++ "] not found")⟩
      else
        ⟨StatusOK, Value.str nodeIDs, Value.null⟩
    let resp : Response := ⟨StatusOK, Value.str nodeIDs, Value.null⟩
    ReturnResponse resp w

/-! ## Sample inputs -/

/-- Collaborators that always succeed and add no defaults. -/
def quietCollaborators : Collaborators := ⟨fun p => p, fun p => p, fun _ _ => none, fun _ => none⟩

/-- Collaborators whose two configuration paths fail. -/
def failingCollaborators : Collaborators :=
  ⟨fun p => p, fun p => p, fun _ _ => some ⟨"env wiring failed"⟩, fun _ => some ⟨"exec failed"⟩⟩

/-- A topology with one DA peer and one consensus peer. -/
def sampleConfig : MutualPeersConfig :=
  ⟨[⟨[⟨"bridge-0", "da", false, []⟩, ⟨"validator-0", "consensus", true, []⟩]⟩]⟩

/-! ## `commands.go`: the bootstrap scripts as transformers of the file state -/

/-- What the node answers to the commands the scripts run. -/
structure Target where
  /-- output of `hostname` -/
  hostname : String
  /-- standard output of `celestia bridge auth admin --node.store /home/celestia` -/
  authOutput : String
  /-- output of the `wget ... | grep -o ... | sed ...` pipeline for a bearer token:
  the node identifier of the `p2p.Info` answer, empty when the request fails -/
  nodeID : String → String

/-- What a path of the file system is. -/
inductive PathKind where
  | absent : PathKind
  | directory : PathKind
  | regularFile : PathKind
  deriving DecidableEq, Repr

/-- The files the scripts touch: the cache file `/tmp/TP-ADDR` (`trustedPeerFile`),
the path `/home/celestia/config/` (`trustedPeers`) and the aggregate file
`TRUSTED_PEERS` below it.  A file is `none` when it does not exist. -/
structure FileState where
  cache : Option String
  configDir : PathKind
  aggregate : Option String
  deriving DecidableEq, Repr

/-- An effect outside the file system. -/
inductive Effect where
  | authToken : Effect
  | rpcInfo : String → Effect
  deriving DecidableEq, Repr

/-- The result of running a script: the file state afterwards, what was
written to standard output, and the recorded effects. -/
structure Run where
  state : FileState
  out : String
  effects : List Effect
  deriving DecidableEq, Repr

/-- The expansion of `trusteedPeerPrefix`, `/dns/$(hostname)/tcp/2121/p2p/`,
inside the double quotes of `echo -n`. -/
def trusteedPeerPrefix (t : Target) : String := "/dns/" ++ t.hostname ++ "/tcp/2121/p2p/"

/-- The words of an unquoted expansion such as `$AUTHTOKEN`: the pieces between
blanks, tabs and newlines; two separators in a row leave an empty piece. -/
def shellWords : List Char → List (List Char)
  | [] => []
  | c :: cs =>
    if c = ' ' ∨ c = '\t' ∨ c = '\n' then [] :: shellWords cs
    else
      match shellWords cs with
      | [] => [[c]]
      | w :: ws => (c :: w) :: ws

/-- The pipeline `echo $AUTHTOKEN|rev|cut -d' ' -f1|rev`: `echo` joins the words of the
expansion by single blanks, and the first field of the reversed line is the
last word (empty when there is none). -/
def lastField (s : String) : String :=
  ⟨(((shellWords s.data).filter (fun w => !w.isEmpty)).getLast?).getD []⟩

/-- The script of `GetTrustedPeerCommand`:
`if [ -f FILE ]; then cat FILE; fi`. -/
def GetTrustedPeerCommand (s : FileState) : Run :=
  match s.cache with
  | some c => ⟨s, c, []⟩
  | none => ⟨s, "", []⟩

/-- The script of `CreateTrustedPeerCommand`. -/
def CreateTrustedPeerCommand (t : Target) (s : FileState) : Run :=
  match s.cache with
  -- if [ -f FILE ]; then cat FILE
  | some c => ⟨s, c, []⟩
  | none =>
    -- echo -n PREFIX > FILE
    let file := trusteedPeerPrefix t
    -- export AUTHTOKEN=$(celestia bridge auth admin ...), then its last word
    let authtoken := lastField t.authOutput
    -- TP_ADDR=$(wget --header="Authorization: Bearer $AUTHTOKEN" ... | grep -o ... | sed ...)
    let tpAddr := t.nodeID authtoken
    -- echo -n TP_ADDR >> FILE
    let file := file ++ tpAddr
    -- cat FILE
    ⟨⟨some file, s.configDir, s.aggregate⟩, file, [Effect.authToken, Effect.rpcInfo authtoken]⟩

/-- A target whose RPC step yields no node identifier. -/
def failingTarget : Target := ⟨"bridge-0", "", fun _ => ""⟩

/-- The file state of a fresh node. -/
def freshState : FileState := ⟨none, PathKind.absent, none⟩

/-- Whether an effect is the `p2p.Info` request. -/
def Effect.isRpcInfo : Effect → Bool
  | Effect.authToken => false
  | Effect.rpcInfo _ => true

namespace F64

end F64

/-- C1: the dispatch matrix of `ConfigureNode`.  A "da" peer connecting by env var
invokes env wiring exactly once and the command path never; a "da" peer not
connecting by env var invokes the command path exactly once and env wiring
never; a "consensus" peer connecting by env var invokes env wiring exactly once
and the command path never. -/
theorem ConfigureNode_dispatch (k : Collaborators) (cfg : MutualPeersConfig) (peer : Peer)
    (err : Option GoError) :
    (peer.NodeType = "da" → peer.ConnectsAsEnvVar = true →
      envWiringCalls (ConfigureNode k cfg peer err).2 = 1 ∧
      commandPathCalls (ConfigureNode k cfg peer err).2 = 0) ∧
    (peer.NodeType = "da" → peer.ConnectsAsEnvVar = false →
      commandPathCalls (ConfigureNode k cfg peer err).2 = 1 ∧
      envWiringCalls (ConfigureNode k cfg peer err).2 = 0) ∧
    (peer.NodeType = "consensus" → peer.ConnectsAsEnvVar = true →
      envWiringCalls (ConfigureNode k cfg peer err).2 = 1 ∧
      commandPathCalls (ConfigureNode k cfg peer err).2 = 0) := by
  obtain ⟨name, type, env, params⟩ := peer
  refine ⟨?_, ?_, ?_⟩
  · rintro rfl rfl
    simp only [ConfigureNode, SetDaNodeDefault, if_true]
    cases h : k.envWiring ⟨name, "da", true, k.daDefault params⟩ cfg <;>
      simp [envWiringCalls, commandPathCalls, Call.isEnvWiring, Call.isCommandPath]
  · rintro rfl rfl
    simp only [ConfigureNode, SetDaNodeDefault, if_true]
    cases h : k.commandPath ⟨name, "da", false, k.daDefault params⟩ <;>
      simp [envWiringCalls, commandPathCalls, Call.isEnvWiring, Call.isCommandPath]
  · rintro rfl rfl
    have hne : ¬ ("consensus" = "da") := by decide
    simp only [ConfigureNode, SetConsNodeDefault, if_true, hne, if_false]
    cases h : k.envWiring ⟨name, "consensus", true, k.consDefault params⟩ cfg <;>
      simp [envWiringCalls, commandPathCalls, Call.isEnvWiring, Call.isCommandPath]

/-- Witness of C1 on the sample topology: each of the three rows of the matrix
is met by a concrete peer. -/
theorem ConfigureNode_dispatch_witness :
    (envWiringCalls (ConfigureNode quietCollaborators sampleConfig ⟨"b", "da", true, []⟩ none).2 = 1 ∧
      commandPathCalls (ConfigureNode quietCollaborators sampleConfig ⟨"b", "da", true, []⟩ none).2 = 0) ∧
    (commandPathCalls (ConfigureNode quietCollaborators sampleConfig ⟨"b", "da", false, []⟩ none).2 = 1 ∧
      envWiringCalls (ConfigureNode quietCollaborators sampleConfig ⟨"b", "da", false, []⟩ none).2 = 0) ∧
    (envWiringCalls (ConfigureNode quietCollaborators sampleConfig ⟨"v", "consensus", true, []⟩ none).2 = 1 ∧
      commandPathCalls (ConfigureNode quietCollaborators sampleConfig ⟨"v", "consensus", true, []⟩ none).2 = 0) :=
  ⟨(ConfigureNode_dispatch quietCollaborators sampleConfig ⟨"b", "da", true, []⟩ none).1 rfl rfl,
   (ConfigureNode_dispatch quietCollaborators sampleConfig ⟨"b", "da", false, []⟩ none).2.1 rfl rfl,
   (ConfigureNode_dispatch quietCollaborators sampleConfig ⟨"v", "consensus", true, []⟩ none).2.2 rfl rfl⟩

/-- C2: the result of `ConfigureNode`.  At most one collaborator is invoked; if
the invoked collaborator returns an error `e` the response has status 500, the
peer name as body and `e` as errors; if it returns no error the response has
status 200 and the peer name as body; the incoming `err` argument has no
influence on the result. -/
theorem ConfigureNode_result (k : Collaborators) (cfg : MutualPeersConfig) (peer : Peer)
    (err : Option GoError) :
    (ConfigureNode k cfg peer err).2.length ≤ 1 ∧
    (∀ c ∈ (ConfigureNode k cfg peer err).2, ∀ e, c.outcome k cfg = some e →
      (ConfigureNode k cfg peer err).1
        = ⟨StatusInternalServerError, Value.str peer.NodeName, Value.err e⟩) ∧
    (∀ c ∈ (ConfigureNode k cfg peer err).2, c.outcome k cfg = none →
      (ConfigureNode k cfg peer err).1.Status = StatusOK ∧
      (ConfigureNode k cfg peer err).1.Body = Value.str peer.NodeName) ∧
    (∀ err2, ConfigureNode k cfg peer err2 = ConfigureNode k cfg peer err) := by
  obtain ⟨name, type, env, params⟩ := peer
  by_cases hda : type = "da"
  · subst hda
    cases env
    · cases h : k.commandPath ⟨name, "da", false, k.daDefault params⟩ <;>
        simp [ConfigureNode, SetDaNodeDefault, Call.outcome, h]
    · cases h : k.envWiring ⟨name, "da", true, k.daDefault params⟩ cfg <;>
        simp [ConfigureNode, SetDaNodeDefault, Call.outcome, h]
  · by_cases hcons : type = "consensus"
    · subst hcons
      cases env
      · simp [ConfigureNode, SetConsNodeDefault, Call.outcome]
      · cases h : k.envWiring ⟨name, "consensus", true, k.consDefault params⟩ cfg <;>
          simp [ConfigureNode, SetConsNodeDefault, Call.outcome, h]
    · cases env
      · simp [ConfigureNode, Call.outcome, hda, hcons]
      · cases h : k.envWiring ⟨name, type, true, params⟩ cfg <;>
          simp [ConfigureNode, Call.outcome, hda, hcons, h]

/-- Witness of C2 on the error side: with failing collaborators the consensus
peer of the sample topology is answered with status 500, its name and the
error of the env wiring path. -/
theorem ConfigureNode_result_witness :
    (ConfigureNode failingCollaborators sampleConfig ⟨"validator-0", "consensus", true, []⟩ none).1
      = ⟨StatusInternalServerError, Value.str "validator-0", Value.err ⟨"env wiring failed"⟩⟩ :=
  (ConfigureNode_result failingCollaborators sampleConfig
      ⟨"validator-0", "consensus", true, []⟩ none).2.1
    (Call.envWiring ⟨"validator-0", "consensus", true, []⟩) (by decide)
    ⟨"env wiring failed"⟩ (by decide)

/-- A name that `ValidateNode` does not find comes with the zero-value peer. -/
theorem ValidateNode_miss (n : String) (cfg : MutualPeersConfig)
    (h : (ValidateNode n cfg).1 = false) : ValidateNode n cfg = (false, Peer.zero) := by
  unfold ValidateNode at h ⊢
  split at h
  · simp at h
  · rfl

/-- For every request that decodes and names a node that is not in the topology,
`Gen` writes two envelopes: the 404 envelope and then the 200 envelope of
`ConfigureNode` for the zero-value peer, without any collaborator call. -/
theorem Gen_miss_continues (k : Collaborators) (w : List Response) (podName : String)
    (cfg : MutualPeersConfig) (h : (ValidateNode podName cfg).1 = false) :
    Gen k w ⟨none, podName⟩ cfg
      = (w ++ [⟨StatusNotFound, Value.str podName,
                 Value.err ⟨"error: Pod doesn't exists in the config"⟩⟩,
               ⟨StatusOK, Value.str "", Value.str ""⟩], []) := by
  have hz : ConfigureNode k cfg Peer.zero none
      = (⟨StatusOK, Value.str "", Value.str ""⟩, []) := by
    simp [ConfigureNode, Peer.zero]
  simp [Gen, ValidateNode_miss podName cfg h, hz, ReturnResponse]

/-- For every node of the topology and every registry value, empty or not,
`GetNoId` writes the one envelope with status 200 and the value as body. -/
theorem GetNoId_found (getKey : String → String × Option GoError) (w : List Response)
    (nodeName : String) (cfg : MutualPeersConfig) (hne : nodeName ≠ "")
    (h : (ValidateNode nodeName cfg).1 = true) :
    GetNoId getKey w nodeName cfg = w ++ [⟨StatusOK, Value.str (getKey nodeName).1, Value.null⟩] := by
  unfold GetNoId
  rw [if_neg hne]
  rcases hv : ValidateNode nodeName cfg with ⟨ok, peer⟩
  rw [hv] at h
  simp only at h
  subst h
  simp [ReturnResponse]

/-- C4 at the failing input: for the unknown node "unknown-node" `Gen` writes the
404 envelope and then goes on to `ConfigureNode` with the zero-value peer and
writes a second envelope, with status 200 and an empty body. -/
theorem Gen_unknown_node_writes_twice :
    Gen quietCollaborators [] ⟨none, "unknown-node"⟩ sampleConfig
      = ([⟨StatusNotFound, Value.str "unknown-node",
            Value.err ⟨"error: Pod doesn't exists in the config"⟩⟩,
          ⟨StatusOK, Value.str "", Value.str ""⟩], []) := by
  decide

/-- C5 at the failing input: for the node "bridge-0" of the topology and an empty
registry value the one envelope `GetNoId` writes has status 200, an empty body
and no errors. -/
theorem GetNoId_empty_value_is_ok :
    GetNoId (fun _ => ("", none)) [] "bridge-0" sampleConfig
      = [⟨StatusOK, Value.str "", Value.null⟩] := by
  decide

/-! ## Theorems on `commands.go` -/

/-- C6: the create script is idempotent.  Running it twice in sequence leaves the
same file state as running it once, both runs emit the content of the cache
file, and the token request and the `p2p.Info` request are each performed at
most once across the two runs. -/
theorem CreateTrustedPeerCommand_idempotent (t : Target) (s : FileState) :
    (CreateTrustedPeerCommand t (CreateTrustedPeerCommand t s).state).state
      = (CreateTrustedPeerCommand t s).state ∧
    (CreateTrustedPeerCommand t s).state.cache = some (CreateTrustedPeerCommand t s).out ∧
    (CreateTrustedPeerCommand t (CreateTrustedPeerCommand t s).state).out
      = (CreateTrustedPeerCommand t s).out ∧
    (((CreateTrustedPeerCommand t s).effects ++
        (CreateTrustedPeerCommand t (CreateTrustedPeerCommand t s).state).effects).count
      Effect.authToken ≤ 1) ∧
    (((CreateTrustedPeerCommand t s).effects ++
        (CreateTrustedPeerCommand t (CreateTrustedPeerCommand t s).state).effects).filter
      Effect.isRpcInfo).length ≤ 1 := by
  obtain ⟨cache, dir, agg⟩ := s
  cases cache <;> simp [CreateTrustedPeerCommand, Effect.isRpcInfo]

/-- C7, as stated, fails: on a node whose RPC step yields no identifier the
create script, started without a cache file, leaves a cache file holding the
prefix alone, and a later run of the get script or of the create script emits
that prefix without a node identifier. -/
theorem CreateTrustedPeerCommand_prefix_only_cache :
    (CreateTrustedPeerCommand failingTarget freshState).state.cache
      = some "/dns/bridge-0/tcp/2121/p2p/" ∧
    (GetTrustedPeerCommand (CreateTrustedPeerCommand failingTarget freshState).state).out
      = "/dns/bridge-0/tcp/2121/p2p/" ∧
    (CreateTrustedPeerCommand failingTarget
        (CreateTrustedPeerCommand failingTarget freshState).state).out
      = "/dns/bridge-0/tcp/2121/p2p/" := by
  decide

/-- C7, amended: when the create script starts without a cache file and the token
or RPC step yields an empty node identifier, the cache file exists afterwards
and holds exactly the expanded prefix; a later run of the get script or of the
create script emits that content, and the create script does not repeat the
token and RPC steps. -/
theorem CreateTrustedPeerCommand_failure_cache (t : Target) (s : FileState)
    (hfresh : s.cache = none) (hfail : t.nodeID (lastField t.authOutput) = "") :
    (CreateTrustedPeerCommand t s).state.cache = some (trusteedPeerPrefix t) ∧
    (GetTrustedPeerCommand (CreateTrustedPeerCommand t s).state).out = trusteedPeerPrefix t ∧
    (CreateTrustedPeerCommand t (CreateTrustedPeerCommand t s).state).out
      = trusteedPeerPrefix t ∧
    (CreateTrustedPeerCommand t (CreateTrustedPeerCommand t s).state).effects = [] := by
  obtain ⟨cache, dir, agg⟩ := s
  simp only at hfresh
  subst hfresh
  simp [CreateTrustedPeerCommand, GetTrustedPeerCommand, hfail]

/-- Witness of the amended C7 on a node without token. -/
theorem CreateTrustedPeerCommand_failure_cache_witness :
    freshState.cache = none ∧
    failingTarget.nodeID (lastField failingTarget.authOutput) = "" ∧
    (CreateTrustedPeerCommand failingTarget freshState).state.cache
      = some (trusteedPeerPrefix failingTarget) :=
  ⟨rfl, rfl, (CreateTrustedPeerCommand_failure_cache failingTarget freshState rfl rfl).1⟩

/-! ### Occurrences of an address in a file -/

end Torch
